import Mathlib

/-!
Shallow embedding of the two connector source files

  airbyte-integrations/connectors/source-facebook-marketing/source_facebook_marketing/streams.py
  airbyte-integrations/connectors/source-aws-cloudtrail/source_aws_cloudtrail/source.py

and proofs about the incremental-cursor / async-job-polling fragment they implement.
Timestamps and dates are modelled as integers (whole days for the windowed job planner
and the cursor filter, whole seconds for the poller's elapsed runtime); logging is a
no-op and network calls are abstracted as explicitly passed data.
-/

namespace Spec2Proof

/- ===================================================================
   Async job poller: AdsInsights.wait_for_job  (streams.py lines 362-393)
   =================================================================== -/

/-- MAX_WAIT_TO_START = pendulum.Interval(minutes=5), in seconds (streams.py line 330). -/
def MAX_WAIT_TO_START : Nat := 300

/-- MAX_WAIT_TO_FINISH = pendulum.Interval(minutes=30), in seconds (streams.py line 331). -/
def MAX_WAIT_TO_FINISH : Nat := 1800

/-- MAX_ASYNC_SLEEP = pendulum.Interval(minutes=5), in seconds (streams.py line 332). -/
def MAX_ASYNC_SLEEP : Nat := 300

/-- the local variable `factor = 2` of wait_for_job (streams.py line 364). -/
def wait_factor : Nat := 2

/-- One update of `sleep_seconds` after a sleep (streams.py lines 392-393):
`if sleep_seconds < self.MAX_ASYNC_SLEEP.in_seconds(): sleep_seconds *= factor`. -/
def next_sleep (s : Nat) : Nat :=
  if s < MAX_ASYNC_SLEEP then s * wait_factor else s

/-- sleep_seconds n is the duration (seconds) passed to time.sleep on the n-th poll
iteration of wait_for_job (0-indexed): it starts at `factor` (streams.py line 366) and
is updated by next_sleep after every sleep. -/
def sleep_seconds : Nat → Nat
  | 0 => wait_factor
  | n + 1 => next_sleep (sleep_seconds n)

/-- the value of `job["async_status"]` as tested by wait_for_job: the three string
literals that are compared against, and `running` for every other value. -/
inductive AsyncStatus
  | completed   -- "Job Completed"
  | failed      -- "Job Failed"
  | skipped     -- "Job Skipped"
  | running     -- any other status: the loop falls through to the timeout checks
deriving DecidableEq

/-- what one iteration of the wait_for_job loop does after fetching the job. -/
inductive PollAction
  | return_completed      -- `return job`
  | raise_failed          -- JobTimeoutException "... failed after ..."
  | raise_skipped         -- JobTimeoutException "... skipped after ..."
  | raise_start_timeout   -- JobTimeoutException "... did not start after ..."
  | raise_finish_timeout  -- JobTimeoutException "... did not finish after ..."
  | sleep_then_poll       -- time.sleep(sleep_seconds) and repeat
deriving DecidableEq

/-- The branch taken by one iteration of wait_for_job (streams.py lines 373-391),
as a function of the job status, the elapsed runtime since submission in seconds
(`runtime = pendulum.now() - start_time`) and `job_progress_pct`:
status checks first, then
`if runtime > MAX_WAIT_TO_START and job_progress_pct == 0` raises the start
timeout, `elif runtime > MAX_WAIT_TO_FINISH` raises the finish timeout, else sleep. -/
def poll_decision : AsyncStatus → Nat → Nat → PollAction
  | .completed, _, _ => .return_completed
  | .failed, _, _ => .raise_failed
  | .skipped, _, _ => .raise_skipped
  | .running, runtime, pct =>
    if MAX_WAIT_TO_START < runtime ∧ pct = 0 then .raise_start_timeout
    else if MAX_WAIT_TO_FINISH < runtime then .raise_finish_timeout
    else .sleep_then_poll

theorem sleep_seconds_eight_onward : ∀ k, sleep_seconds (8 + k) = 512 := by
  intro k
  induction k with
  | zero => decide
  | succ k ih =>
      have h : 8 + (k + 1) = (8 + k) + 1 := by omega
      rw [h, sleep_seconds, ih]
      decide

theorem sleep_seconds_closed_form :
    ∀ n, sleep_seconds n = if n ≤ 7 then 2 ^ (n + 1) else 512 := by
  intro n
  by_cases h : n ≤ 7
  · simp only [h, if_pos]
    interval_cases n <;> decide
  · simp only [h, if_neg, if_false]
    have h8 : n = 8 + (n - 8) := by omega
    rw [h8, sleep_seconds_eight_onward]

/-- C1 (counterexample): the 9-th sleep of wait_for_job lasts 512 seconds, not 300:
the sequence of sleep durations exceeds the 300-second cap and is never pinned to it,
contradicting the claimed sequence 2, 4, 8, ..., 256, 300, 300, ... . -/
theorem c1_counterexample :
    sleep_seconds 8 = 512 ∧ sleep_seconds 8 ≠ 300 ∧ 300 < sleep_seconds 8 := by
  decide

/-- C1 (amended): the sleep sequence of wait_for_job starts at 2 seconds and doubles
on each of the first 8 iterations, reaching 512 seconds on iteration 8 and staying
at 512 from then on (the guard stops the doubling only after the value has already
overshot the 300-second MAX_ASYNC_SLEEP); the sequence never decreases and is bounded
by 512, not by 300. -/
theorem c1_amended :
    sleep_seconds 0 = 2
    ∧ (∀ n, sleep_seconds n = if n ≤ 7 then 2 ^ (n + 1) else 512)
    ∧ (∀ n, sleep_seconds n ≤ sleep_seconds (n + 1))
    ∧ (∀ n, sleep_seconds n ≤ 512) := by
  refine ⟨rfl, sleep_seconds_closed_form, ?_, ?_⟩
  · intro n
    rw [sleep_seconds, next_sleep]
    split
    · exact Nat.le_mul_of_pos_right _ (by decide)
    · exact Nat.le_refl _
  · intro n
    rw [sleep_seconds_closed_form]
    split
    · calc 2 ^ (n + 1) ≤ 2 ^ 8 := Nat.pow_le_pow_right (by decide) (by omega)
        _ ≤ 512 := by decide
    · exact Nat.le_refl _

/-- C6: wait_for_job raises the start-timeout error ("did not start") exactly on the
non-terminal iterations where the elapsed runtime exceeds MAX_WAIT_TO_START (5 minutes)
and the reported progress is 0 percent; concretely, at 301 seconds with progress 0 it
raises, and at 299 seconds with progress 0 it sleeps and polls again. -/
theorem c6_start_timeout :
    (∀ (st : AsyncStatus) (rt pct : Nat),
      poll_decision st rt pct = .raise_start_timeout
        ↔ (st = .running ∧ 300 < rt ∧ pct = 0))
    ∧ poll_decision .running 301 0 = .raise_start_timeout
    ∧ poll_decision .running 299 0 = .sleep_then_poll := by
  refine ⟨?_, by decide, by decide⟩
  intro st rt pct
  cases st <;>
    simp only [poll_decision, MAX_WAIT_TO_START, MAX_WAIT_TO_FINISH] <;>
    try simp
  split_ifs with h1 _ <;> simp_all

/-- C7 (counterexample): at 1860 seconds (31 minutes) of elapsed runtime with progress
still 0 percent, a non-terminal job makes wait_for_job raise the start-timeout error
("did not start"), not the finish-timeout error ("did not finish"): the finish-timeout
is not raised regardless of progress. -/
theorem c7_counterexample :
    poll_decision .running 1860 0 = .raise_start_timeout
    ∧ poll_decision .running 1860 0 ≠ .raise_finish_timeout := by
  decide

/-- C7 (amended): wait_for_job raises the finish-timeout error ("did not finish")
exactly on the non-terminal iterations where the elapsed runtime exceeds
MAX_WAIT_TO_FINISH (30 minutes) and the reported progress is nonzero; when progress
is still 0 percent the start-timeout branch fires first and raises the start-timeout
error instead. -/
theorem c7_amended :
    ∀ (st : AsyncStatus) (rt pct : Nat),
      poll_decision st rt pct = .raise_finish_timeout
        ↔ (st = .running ∧ 1800 < rt ∧ pct ≠ 0) := by
  intro st rt pct
  cases st <;>
    simp only [poll_decision, MAX_WAIT_TO_START, MAX_WAIT_TO_FINISH] <;>
    try simp
  split_ifs with h1 h2 <;> simp_all <;> omega

/- ===================================================================
   Status slicer and FBMarketingStream.read  (streams.py lines 45-119)
   =================================================================== -/

/-- the fixed enumeration filt_values of 14 delivery-status labels
(streams.py lines 83-98). -/
def filt_values : List String :=
  ["active", "archived", "completed", "limited", "not_delivering", "deleted",
   "not_published", "pending_review", "permanently_deleted", "recently_completed",
   "recently_rejected", "rejected", "scheduled", "inactive"]

/-- the chunking loop of _status_slices (streams.py line 101):
`for i in range(0, len(filt_values), sub_list_length): yield filt_values[i : i + sub_list_length]`,
here written as the equivalent take/drop recursion. The `1 ≤ m` conjunct in the guard
makes the function total; the Python loop is only ever run with a positive step
(`sub_list_length` is 3 or 14). -/
def sliceChunks (m : Nat) (l : List α) : List (List α) :=
  if h : 1 ≤ m ∧ l.length ≠ 0 then l.take m :: sliceChunks m (l.drop m)
  else []
termination_by l.length
decreasing_by
  simp only [List.length_drop]
  omega

/-- the value lists of the filter objects yielded by FBMarketingStream._status_slices
(streams.py lines 78-106): `sub_list_length = 3 if self.split_deleted_filter else
len(filt_values)`, then the chunking loop over filt_values. Each emitted chunk is
wrapped into one filtering object with constant field and IN operator, so the chunk
value lists determine the slices. -/
def status_slices (split_deleted_filter : Bool) : List (List String) :=
  sliceChunks (if split_deleted_filter then 3 else filt_values.length) filt_values

theorem sliceChunks_flatten {α : Type} (m : Nat) (hm : 1 ≤ m) :
    ∀ (l : List α), (sliceChunks m l).flatten = l := by
  have H : ∀ (n : Nat) (l : List α), l.length ≤ n → (sliceChunks m l).flatten = l := by
    intro n
    induction n with
    | zero =>
        intro l hl
        have : l = [] := List.eq_nil_of_length_eq_zero (Nat.le_zero.mp hl)
        subst this
        rw [sliceChunks]
        simp
    | succ n ih =>
        intro l hl
        rw [sliceChunks]
        by_cases hnil : l.length = 0
        · have : l = [] := List.eq_nil_of_length_eq_zero hnil
          subst this
          simp
        · rw [dif_pos ⟨hm, hnil⟩]
          have hdrop : (l.drop m).length ≤ n := by
            simp only [List.length_drop]
            omega
          simp only [List.flatten_cons]
          rw [ih (l.drop m) hdrop, List.take_append_drop]
  exact fun l => H l.length l (Nat.le_refl _)

/-- C8: for every chunk size at least 1, the chunks emitted by the _status_slices loop
concatenate back to the full 14-label enumeration in original order (so the slices are
non-overlapping and cover every label exactly once); with split_deleted_filter false a
single slice carries all 14 labels, and with split_deleted_filter true the labels are
chunked with chunk size 3 (four full chunks and a final chunk of the remaining 2). -/
theorem status_slices_all_at_once : status_slices false = [filt_values] := by
  rw [status_slices, if_neg (by simp)]
  rw [sliceChunks, dif_pos (by simp [filt_values])]
  rw [sliceChunks, dif_neg (by simp)]
  simp

theorem status_slices_narrowed :
    status_slices true =
      [["active", "archived", "completed"],
       ["limited", "not_delivering", "deleted"],
       ["not_published", "pending_review", "permanently_deleted"],
       ["recently_completed", "recently_rejected", "rejected"],
       ["scheduled", "inactive"]] := by
  rw [status_slices, if_pos rfl]
  rw [sliceChunks, dif_pos (by simp [filt_values])]
  rw [sliceChunks, dif_pos (by simp [filt_values])]
  rw [sliceChunks, dif_pos (by simp [filt_values])]
  rw [sliceChunks, dif_pos (by simp [filt_values])]
  rw [sliceChunks, dif_pos (by simp [filt_values])]
  rw [sliceChunks, dif_neg (by simp [filt_values])]
  simp [filt_values]

/-- C8: for every chunk size at least 1, the chunks emitted by the _status_slices loop
concatenate back to the full 14-label enumeration in original order (so the slices are
non-overlapping and cover every label exactly once); with split_deleted_filter false a
single slice carries all 14 labels, and with split_deleted_filter true the labels are
chunked with chunk size 3 (four full chunks and a final chunk of the remaining 2). -/
theorem c8_status_slice_coverage :
    (∀ m, 1 ≤ m → (sliceChunks m filt_values).flatten = filt_values)
    ∧ status_slices false = [filt_values]
    ∧ status_slices true =
        [["active", "archived", "completed"],
         ["limited", "not_delivering", "deleted"],
         ["not_published", "pending_review", "permanently_deleted"],
         ["recently_completed", "recently_rejected", "rejected"],
         ["scheduled", "inactive"]] :=
  ⟨fun m hm => sliceChunks_flatten m hm filt_values,
   status_slices_all_at_once, status_slices_narrowed⟩

/-- C8 (witness): the coverage property of c8_status_slice_coverage instantiated at
chunk size 3. -/
theorem c8_status_slice_coverage_witness :
    (sliceChunks 3 filt_values).flatten = filt_values :=
  c8_status_slice_coverage.1 3 (by decide)

/-- request parameters as they matter to FBMarketingStream.read: the page-size limit
set by _build_params (streams.py line 119) and the delivery-status filter value list
deep-merged in by the status slice (none when no slice is applied). The caller's other
params are untouched by the slicing and are left abstract. -/
structure FBParams where
  limit : Nat
  statusFilter : Option (List String)
deriving DecidableEq

/-- FBMarketingStream._build_params (streams.py lines 117-119): sets "limit" to
page_size and keeps the incoming params (here: the status filter entry). -/
def build_params (page_size : Nat) (statusFilter : Option (List String)) : FBParams :=
  { limit := page_size, statusFilter := statusFilter }

/-- FBMarketingStream.__init__ (streams.py line 57):
`self._include_deleted = include_deleted if self.enable_deleted else False`. -/
def init_include_deleted (enable_deleted include_deleted : Bool) : Bool :=
  if enable_deleted then include_deleted else false

/-- FBMarketingStream.read (streams.py lines 108-115): with _include_deleted set, one
getter call per status slice with the filter deep-merged into the params; otherwise a
single getter call with no status filter. The getter stands for the decorated API
call and returns the records of its response. -/
def fb_read {α : Type} (page_size : Nat) (include_deleted split_deleted_filter : Bool)
    (getter : FBParams → List α) : List α :=
  if include_deleted then
    ((status_slices split_deleted_filter).map
      (fun v => getter (build_params page_size (some v)))).flatten
  else
    getter (build_params page_size none)

/-- C10: a stream class with enable_deleted = False has effective _include_deleted
False no matter what include_deleted argument the constructor received, and its read
makes exactly one getter call with no status-filter slice applied. -/
theorem c10_enable_deleted_off :
    ∀ (page_size : Nat) (include_deleted split_deleted_filter : Bool)
      (getter : FBParams → List Nat),
      init_include_deleted false include_deleted = false
      ∧ fb_read page_size (init_include_deleted false include_deleted)
          split_deleted_filter getter
        = getter (build_params page_size none) := by
  intro page_size include_deleted split_deleted_filter getter
  exact ⟨rfl, rfl⟩

/- ===================================================================
   Cursor tracker: FBMarketingIncrementalStream  (streams.py lines 126-182)
   and IncrementalAwsCloudtrailStream.get_updated_state (source.py lines 96-103)
   =================================================================== -/

/-- the drop test of FBMarketingIncrementalStream.read (streams.py line 175):
`self._state and self._state.subtract(days=self.buffer_days + 1) >= cursor`,
with dates in whole days, so subtract(days=k) is subtraction of k. -/
def drops_record (buffer_days : Int) (state : Option Int) (cursor : Int) : Bool :=
  match state with
  | none => false
  | some w => decide (w - (buffer_days + 1) ≥ cursor)

/-- the latest_cursor update of streams.py line 177:
`max(cursor, latest_cursor) if latest_cursor else cursor`. -/
def update_latest (latest : Option Int) (cursor : Int) : Int :=
  match latest with
  | none => cursor
  | some l => max cursor l

/-- the record loop of FBMarketingIncrementalStream.read (streams.py lines 172-178):
traverse the cursor values of the records produced by super().read, skip the ones the
drop test filters out, yield the rest while tracking latest_cursor; returns the
yielded cursor values and the final latest_cursor. -/
def read_loop (buffer_days : Int) (state : Option Int) :
    List Int → Option Int → List Int × Option Int
  | [], latest => ([], latest)
  | cursor :: rest, latest =>
    if drops_record buffer_days state cursor then
      read_loop buffer_days state rest latest
    else
      let out := read_loop buffer_days state rest (some (update_latest latest cursor))
      (cursor :: out.1, out.2)

/-- FBMarketingIncrementalStream.read (streams.py lines 169-182): the yielded cursor
values of one pass and the state after it; lines 180-182 set self._state to
`max(latest_cursor, self._state) if self._state else latest_cursor` when at least one
record was yielded, and leave it alone otherwise. -/
def inc_read (buffer_days : Int) (state : Option Int) (records : List Int) :
    List Int × Option Int :=
  let out := read_loop buffer_days state records none
  match out.2 with
  | none => (out.1, state)
  | some latest =>
    (out.1, some (match state with | none => latest | some s => max latest s))

/-- successive reads of one incremental stream: each pass starts from the state the
previous pass left behind. -/
def run_reads (buffer_days : Int) : Option Int → List (List Int) → Option Int
  | state, [] => state
  | state, records :: rest => run_reads buffer_days (inc_read buffer_days state records).2 rest

theorem read_loop_yielded (b : Int) (st : Option Int) (rs : List Int) :
    ∀ latest, (read_loop b st rs latest).1 = rs.filter (fun c => !drops_record b st c) := by
  induction rs with
  | nil => intro latest; rfl
  | cons c rest ih =>
      intro latest
      by_cases h : drops_record b st c
      · simp [read_loop, h, List.filter_cons, ih]
      · simp [read_loop, h, List.filter_cons, ih]

theorem read_loop_latest (b : Int) (st : Option Int) (rs : List Int) :
    ∀ latest, (read_loop b st rs latest).2 =
      List.foldl (fun o c => some (update_latest o c)) latest
        (rs.filter (fun c => !drops_record b st c)) := by
  induction rs with
  | nil => intro latest; rfl
  | cons c rest ih =>
      intro latest
      by_cases h : drops_record b st c
      · simp [read_loop, h, List.filter_cons, ih]
      · simp [read_loop, h, List.filter_cons, ih]

theorem foldl_update_latest_some (l : List Int) :
    ∀ a : Int, List.foldl (fun o c => some (update_latest o c)) (some a) l
      = some (l.foldl (fun x c => max c x) a) := by
  induction l with
  | nil => intro a; rfl
  | cons c rest ih =>
      intro a
      rw [List.foldl_cons, List.foldl_cons]
      exact ih (max c a)

theorem foldl_max_out (l : List Int) :
    ∀ a s : Int, max (l.foldl (fun x c => max c x) a) s = l.foldl max (max s a) := by
  induction l with
  | nil =>
      intro a s
      simp [max_comm]
  | cons c rest ih =>
      intro a s
      simp only [List.foldl_cons, ih]
      congr 1
      rw [max_comm c a, ← max_assoc]

theorem le_foldl_max (l : List Int) : ∀ a s : Int, a ≤ s → a ≤ l.foldl max s := by
  induction l with
  | nil => intro a s h; exact h
  | cons c rest ih =>
      intro a s h
      exact ih a (max s c) (le_trans h (le_max_left s c))

theorem inc_read_state_eq (b s : Int) (rs : List Int) :
    (inc_read b (some s) rs).2 = some ((inc_read b (some s) rs).1.foldl max s) := by
  have hy := read_loop_yielded b (some s) rs none
  have hl := read_loop_latest b (some s) rs none
  rw [inc_read]
  cases hfilter : rs.filter (fun c => !drops_record b (some s) c) with
  | nil =>
      rw [hfilter] at hy hl
      simp only [List.foldl_nil] at hl
      simp [hl, hy]
  | cons c rest =>
      rw [hfilter] at hy hl
      simp only [List.foldl_cons] at hl
      rw [foldl_update_latest_some] at hl
      simp only [hl, hy]
      simp [update_latest, List.foldl_cons]
      rw [foldl_max_out]

/-- C3 (counterexample): with watermark day 100 and buffer_days 5, the record with
cursor day 97 — inside the buffer window [95, 100] and hence already emitted by the
run that advanced the watermark to 100 — IS yielded again by read, and the record
with cursor day 94, which equals watermark - (buffer_days + 1) and so is not strictly
older than the adjusted boundary, is dropped; both contradict the claim as stated. -/
theorem c3_counterexample :
    inc_read 5 (some 100) [97, 94] = ([97], some 100)
    ∧ 95 ≤ (97 : Int) ∧ (97 : Int) ≤ 100
    ∧ (94 : Int) = 100 - (5 + 1) := by
  decide

/-- C3 (amended): a record traversed by read with a set watermark w is dropped if and
only if its cursor value is older than OR EQUAL TO w - (buffer_days + 1) days
(equivalently, yielded iff strictly newer than the adjusted boundary); consequently
records with cursor inside the re-fetch window [w - buffer_days, w] are yielded again
rather than excluded, and (for buffer_days ≥ -1, which covers every value the code
uses) every record with cursor newer than w is yielded. -/
theorem c3_amended :
    ∀ (b w : Int) (rs : List Int),
      (inc_read b (some w) rs).1 = rs.filter (fun c => decide (w - (b + 1) < c))
      ∧ (∀ c, c ∈ rs → w - b ≤ c → c ∈ (inc_read b (some w) rs).1)
      ∧ (∀ c, c ∈ rs → -1 ≤ b → w < c → c ∈ (inc_read b (some w) rs).1) := by
  intro b w rs
  have hy : (inc_read b (some w) rs).1
      = rs.filter (fun c => decide (w - (b + 1) < c)) := by
    have h := read_loop_yielded b (some w) rs none
    have hfun : (fun c => !drops_record b (some w) c)
        = (fun c => decide (w - (b + 1) < c)) := by
      funext c
      simp only [drops_record, ← decide_not, decide_eq_decide]
      omega
    rw [inc_read]
    cases (read_loop b (some w) rs none).2 <;> simp [h, hfun]
  refine ⟨hy, ?_, ?_⟩
  · intro c hc hbuf
    rw [hy, List.mem_filter]
    exact ⟨hc, by simp; omega⟩
  · intro c hc hb hw
    rw [hy, List.mem_filter]
    exact ⟨hc, by simp; omega⟩

/-- C3 (witness): the amended filtering rule applied at watermark 100, buffer_days 5,
to the single record with cursor 97: the record is inside the re-fetch window and is
yielded. -/
theorem c3_amended_witness : 97 ∈ (inc_read 5 (some 100) [97]).1 :=
  (c3_amended 5 100 [97]).2.1 97 (by simp) (by norm_num)

/-- C5: one read pass with a set watermark s ends with the watermark equal to the
fold of max over the yielded cursor values started at s — so the watermark never
decreases, a pass that yields nothing leaves it unchanged, and across any sequence of
successive reads the watermark is monotonically non-decreasing. -/
theorem c5_monotonic_watermark :
    ∀ (b s : Int) (rs : List Int),
      (inc_read b (some s) rs).2 = some ((inc_read b (some s) rs).1.foldl max s)
      ∧ s ≤ (inc_read b (some s) rs).1.foldl max s
      ∧ ((inc_read b (some s) rs).1 = [] → (inc_read b (some s) rs).2 = some s)
      ∧ (∀ batches, ∃ t, run_reads b (some s) batches = some t ∧ s ≤ t) := by
  have key : ∀ (b s : Int) (rs : List Int),
      (inc_read b (some s) rs).2 = some ((inc_read b (some s) rs).1.foldl max s)
      ∧ s ≤ (inc_read b (some s) rs).1.foldl max s := by
    intro b s rs
    exact ⟨inc_read_state_eq b s rs, le_foldl_max _ s s (le_refl s)⟩
  intro b s rs
  refine ⟨(key b s rs).1, (key b s rs).2, ?_, ?_⟩
  · intro hnil
    rw [(key b s rs).1, hnil]
    rfl
  · have run : ∀ (batches : List (List Int)) (s : Int),
        ∃ t, run_reads b (some s) batches = some t ∧ s ≤ t := by
      intro batches
      induction batches with
      | nil => intro s; exact ⟨s, rfl, le_refl s⟩
      | cons rs rest ih =>
          intro s
          obtain ⟨t, ht, hle⟩ := ih ((inc_read b (some s) rs).1.foldl max s)
          refine ⟨t, ?_, le_trans (key b s rs).2 hle⟩
          rw [run_reads, (key b s rs).1]
          exact ht
    exact fun batches => run batches s

/-- C5 (witness): the empty-pass clause of c5_monotonic_watermark at watermark 7,
buffer_days 0, with no records traversed: the state is unchanged. -/
theorem c5_monotonic_watermark_witness : (inc_read 0 (some 7) []).2 = some 7 :=
  (c5_monotonic_watermark 0 7 []).2.2.1 rfl

/-- stream state of a Facebook marketing incremental stream as get_updated_state
handles it: the cursor entry (absent on a first run) and the include_deleted flag. -/
structure FBStreamState where
  cursor : Option Int
  include_deleted : Bool
deriving DecidableEq

/-- FBMarketingIncrementalStream.get_updated_state (streams.py lines 134-147) as
written: cursor_value starts as self._start_date and, unless
potentially_new_records_in_the_past, is re-read from the current state (with
start_date as the .get default). Lines 140-142 of the source leave a dangling
`max(pendulum.parse(current_stream_state[self.cursor_field])` expression with
unbalanced parentheses that is assigned to nothing (as written the module does not
even parse), and the latest_record argument is never consulted. -/
def fb_get_updated_state (start_date : Option Int) (include_deleted : Bool)
    (current_stream_state : FBStreamState) (latest_record_cursor : Int) : FBStreamState :=
  let potentially_new_records_in_the_past :=
    include_deleted && !current_stream_state.include_deleted
  let cursor_value : Option Int :=
    if potentially_new_records_in_the_past then start_date
    else (current_stream_state.cursor).orElse (fun _ => start_date)
  { cursor := cursor_value, include_deleted := include_deleted }

/-- IncrementalAwsCloudtrailStream.get_updated_state (source.py lines 96-103):
`{self.cursor_field: max(record_time, current_stream_state.get(self.cursor_field, 0))}`
with record_time = latest_record[self.time_field], an integer epoch timestamp. -/
def ct_get_updated_state (current_state_cursor : Option Int) (record_time : Int) : Int :=
  max record_time (current_state_cursor.getD 0)

/-- C4: at current state cursor 2 and latest record cursor 5, the CloudTrail
implementation returns max 5 2 = 5 and never returns less than either input, as the
claim states; the Facebook implementation as written returns the old state cursor 2,
ignoring the latest record entirely. -/
theorem c4_code_evaluation :
    ct_get_updated_state (some 2) 5 = max 5 2
    ∧ (∀ (st : Option Int) (r : Int),
        ct_get_updated_state st r = max r (st.getD 0)
        ∧ st.getD 0 ≤ ct_get_updated_state st r ∧ r ≤ ct_get_updated_state st r)
    ∧ fb_get_updated_state (some 0) false ⟨some 2, false⟩ 5 = ⟨some 2, false⟩
    ∧ (fb_get_updated_state (some 0) false ⟨some 2, false⟩ 5).cursor ≠ some (max 5 2) := by
  refine ⟨by decide, ?_, by decide, by decide⟩
  intro st r
  exact ⟨rfl, le_max_right _ _, le_max_left _ _⟩

/- ===================================================================
   Windowed job planner: AdsInsights.__init__ and AdsInsights._params
   (streams.py lines 341-346 and 395-416)
   =================================================================== -/

/-- the instance fields set by AdsInsights.__init__ (streams.py lines 341-346):
the watermark self._state (initialised to start_date), the constructor argument
stored into self._buffer_days, and self._sync_interval = Interval(days=days_per_job),
all in whole days. -/
structure AdsInsightsFields where
  _state : Int
  _buffer_days : Int
  _sync_interval : Int
deriving DecidableEq

/-- the class attribute buffer_days = -1 that FBMarketingIncrementalStream declares
(streams.py line 127) and AdsInsights never overrides: __init__ writes the
constructor's buffer_days only into self._buffer_days. -/
def class_buffer_days : Int := -1

/-- the while loop of AdsInsights._params (streams.py lines 403-416): while
buffered_start_date ≤ end_date (= now), yield the time_range
since = start, until = start + sync_interval — the until bound is not clipped to
now — and advance start by sync_interval. Dates are whole days. The `1 ≤ D` conjunct
in the guard makes the function total; the Python loop does not test it and never
terminates for a non-positive days_per_job, a value the connector never configures. -/
def windows_from (D now start : Int) : List (Int × Int) :=
  if h : 1 ≤ D ∧ start ≤ now then (start, start + D) :: windows_from D now (start + D)
  else []
termination_by (now + 1 - start).toNat
decreasing_by omega

/-- AdsInsights._params (streams.py lines 395-416): buffered_start_date =
self._state - Interval(days=self.buffer_days); `self.buffer_days` resolves to the
class attribute (-1), not to the _buffer_days field filled by __init__, which no code
reads. Each yielded params dict is determined by its time_range window, so the window
list models the emitted jobs. -/
def ads_params (now : Int) (f : AdsInsightsFields) : List (Int × Int) :=
  windows_from f._sync_interval now (f._state - class_buffer_days)

/-- C2: at watermark day 100, constructor buffer_days 5, window size 10 days and
now = day 130, _params emits the windows [101,111), [111,121), [121,131) — it
subtracts the class attribute buffer_days = -1 instead of the configured 5, so no
window starts at day 95, and the final window [121,131), which contains now = 130,
is not clipped; moreover the emitted windows do not depend on the constructor's
buffer_days argument at all. -/
theorem c2_code_evaluation :
    ads_params 130 ⟨100, 5, 10⟩ = [(101, 111), (111, 121), (121, 131)]
    ∧ (∀ (now st b b' D : Int),
        ads_params now ⟨st, b, D⟩ = ads_params now ⟨st, b', D⟩) := by
  constructor
  · rw [ads_params]
    norm_num [class_buffer_days]
    rw [windows_from, dif_pos (by norm_num)]
    rw [windows_from, dif_pos (by norm_num)]
    rw [windows_from, dif_pos (by norm_num)]
    rw [windows_from, dif_neg (by norm_num)]
    norm_num
  · intro now st b b' D
    rfl

/- ===================================================================
   Paginator: IncrementalAwsCloudtrailStream.read_records
   (source.py lines 113-134) with AwsCloudtrailStream.next_page_token
   (source.py lines 67-68)
   =================================================================== -/

/-- one response of the listing call: the record collection parse_response iterates
over, and the optional NextToken that AwsCloudtrailStream.next_page_token extracts
via `response.get('NextToken')`. -/
structure CtResponse (R : Type) where
  events : List R
  nextToken : Option Nat

/-- AwsCloudtrailStream.next_page_token (source.py lines 67-68). -/
def next_page_token (response : CtResponse R) : Option Nat :=
  response.nextToken

/-- a finite run of responses as in the claim: the i-th page of `pages` carries
NextToken (i+1) exactly when a further page follows, and the last page carries no
token. -/
def chain_response (pages : List (List R)) (i : Nat) : CtResponse R :=
  { events := pages.getD i [],
    nextToken := if i + 1 < pages.length then some (i + 1) else none }

theorem chain_response_token (pages : List (List R)) (i : Nat) :
    next_page_token (chain_response pages i)
      = if i + 1 < pages.length then some (i + 1) else none := rfl

/-- the while loop of IncrementalAwsCloudtrailStream.read_records (source.py lines
124-132) run over the chained responses, entered at response i: yield the records of
the current response, extract the token, and continue while the token is present
(pagination_complete otherwise). By chain_response_token the token is present exactly
when i + 1 < pages.length, which is the recursion guard used here. -/
def read_records_from (pages : List (List R)) (i : Nat) : List R :=
  (chain_response pages i).events ++
    (if _h : i + 1 < pages.length then read_records_from pages (i + 1) else [])
termination_by pages.length - i

/-- IncrementalAwsCloudtrailStream.read_records (source.py lines 113-134): the loop
starts with next_page_token = None, so the first request returns page 0. -/
def ct_read_records (pages : List (List R)) : List R :=
  read_records_from pages 0

theorem read_records_from_eq {R : Type} (pages : List (List R)) :
    ∀ (k i : Nat), pages.length - i ≤ k →
      read_records_from pages i = (pages.drop i).flatten := by
  intro k
  induction k with
  | zero =>
      intro i hi
      have hlen : pages.length ≤ i := by omega
      rw [read_records_from, dif_neg (by omega)]
      rw [chain_response]
      simp [List.getD_eq_getElem?_getD, List.getElem?_eq_none hlen,
        List.drop_eq_nil_of_le hlen]
  | succ k ih =>
      intro i hi
      by_cases hlt : i < pages.length
      · rw [read_records_from, chain_response]
        have hget : pages.getD i [] = pages[i] := by
          simp [List.getD_eq_getElem?_getD, List.getElem?_eq_getElem hlt]
        have hdrop : pages.drop i = pages[i] :: pages.drop (i + 1) :=
          List.drop_eq_getElem_cons hlt
        by_cases h2 : i + 1 < pages.length
        · rw [dif_pos h2, ih (i + 1) (by omega), hget, hdrop, List.flatten_cons]
        · rw [dif_neg h2, hget, hdrop]
          have hnil : pages.drop (i + 1) = [] := List.drop_eq_nil_of_le (by omega)
          rw [hnil, List.flatten_cons, List.flatten_nil, List.append_nil]
      · have hlen : pages.length ≤ i := by omega
        rw [read_records_from, dif_neg (by omega)]
        rw [chain_response]
        simp [List.getD_eq_getElem?_getD, List.getElem?_eq_none hlen,
          List.drop_eq_nil_of_le hlen]

/-- C9: over any finite chained sequence of response pages (every page carrying a
NextToken except the last), the read_records pagination loop yields exactly the
concatenation of the pages' record collections — every record of every page once, in
page order — and terminates (the loop function is total). -/
theorem c9_pagination :
    ∀ (pages : List (List Nat)),
      ct_read_records pages = pages.flatten
      ∧ ∀ i, read_records_from pages i = (pages.drop i).flatten := by
  intro pages
  constructor
  · rw [ct_read_records, read_records_from_eq pages pages.length 0 (by omega)]
    rfl
  · intro i
    exact read_records_from_eq pages (pages.length - i) i (le_refl _)

end Spec2Proof
